import Mathlib

/-!
Verification of the EqdskReader g-file parser and accessor layer
(`eqtools/eqdskreader.py`).

The file is shallowly embedded: lines of the input file are `List Char`,
numbers are `ℚ`, ndarrays are Lean lists, Python exceptions are the
`Err` inductive carried in `Except`, and the object's mutable attributes
form the `EqdskRecord` structure.  Every definition mirrors a specific
piece of `EqdskReader.__init__` or one of its getter methods.
-/

namespace Eqdsk

/-- Python exceptions raised along the parse / accessor paths.
`dataUnavailable` stands for `ValueError('must read a-file for this data.')`,
`valueError` for the remaining `ValueError`s (bad `int()`/`float()`,
`reshape` size mismatch), `keyError` for the time-unit dict lookup. -/
inductive Err where
  | stopIteration
  | indexError
  | valueError
  | keyError
  | attributeError
  | dataUnavailable
  deriving DecidableEq, Repr

instance {ε α : Type} [DecidableEq ε] [DecidableEq α] : DecidableEq (Except ε α)
  | .ok a, .ok b =>
    if h : a = b then .isTrue (by rw [h]) else .isFalse (by intro he; cases he; exact h rfl)
  | .error e, .error f =>
    if h : e = f then .isTrue (by rw [h]) else .isFalse (by intro he; cases he; exact h rfl)
  | .ok _, .error _ => .isFalse (by intro h; cases h)
  | .error _, .ok _ => .isFalse (by intro h; cases h)

/-- A line of the file, as a list of characters (Python `str`). -/
abbrev Line := List Char

def isDigit (c : Char) : Bool := '0' ≤ c && c ≤ '9'

def digitVal (c : Char) : Nat := c.toNat - '0'.toNat

def isSpace (c : Char) : Bool := c = ' ' || c = '\t' || c = '\r' || c = '\n'

/-- Python `str.split()` (no argument): split on runs of whitespace,
dropping empty fields. -/
def splitWs (l : Line) : List Line :=
  go l []
where
  go : Line → Line → List Line
    | [], acc => if acc = [] then [] else [acc.reverse]
    | c :: cs, acc =>
      if isSpace c then
        if acc = [] then go cs [] else acc.reverse :: go cs []
      else go cs (c :: acc)

/-- Python `str.split(sep)` for a non-empty separator: split at each
non-overlapping occurrence of `sep`, scanning left to right; empty pieces
are kept (`'00875ms'.split('00875') == ['', 'ms']`). -/
def splitOnSep (sep : Line) (l : Line) : List Line :=
  go l.length l []
where
  go : Nat → Line → Line → List Line
    | _, [], acc => [acc.reverse]
    | 0, l, acc => [acc.reverse ++ l]
    | fuel + 1, c :: cs, acc =>
      if sep ≠ [] ∧ sep.isPrefixOf (c :: cs) then
        acc.reverse :: go fuel ((c :: cs).drop sep.length) []
      else
        go fuel cs (c :: acc)

/-- `re.split('\\D', s)`: split at every non-digit character (each one a
separator of its own), keeping empty pieces. -/
def splitNonDigit : Line → List Line
  | [] => [[]]
  | c :: cs =>
    if isDigit c then
      match splitNonDigit cs with
      | [] => [[c]]
      | p :: ps => (c :: p) :: ps
    else [] :: splitNonDigit cs

/-- `re.findall('\\d+', s)`: maximal runs of digits, left to right. -/
def findallDigits : Line → List Line
  | [] => []
  | c :: cs =>
    if isDigit c then
      match findallDigits cs with
      | [] => [[c]]
      | p :: ps =>
        -- a run continues only if it starts right after `c`
        match cs with
        | [] => [[c]]
        | c' :: _ => if isDigit c' then (c :: p) :: ps else [c] :: p :: ps
    else findallDigits cs

/-- Numeric value of a digit string. -/
def digitsToNat (l : Line) : Nat :=
  l.foldl (fun n c => 10 * n + digitVal c) 0

/-- Python `int(s)` on a whitespace-free field: optional sign followed by
at least one digit, else `ValueError`. -/
def pyInt (l : Line) : Except Err Int :=
  match l with
  | '-' :: ds => if ds ≠ [] ∧ ds.all isDigit then .ok (-(digitsToNat ds : Int)) else .error .valueError
  | '+' :: ds => if ds ≠ [] ∧ ds.all isDigit then .ok (digitsToNat ds : Int) else .error .valueError
  | ds => if ds ≠ [] ∧ ds.all isDigit then .ok (digitsToNat ds : Int) else .error .valueError

/-- Python list indexing `l[i]` for `i ≥ 0`: `IndexError` when out of range. -/
def pyIdx (l : List α) (i : Nat) : Except Err α :=
  match l.get? i with
  | some a => .ok a
  | none => .error .indexError

/-- Python negative indexing `l[-k]` (`k ≥ 1`). -/
def pyIdxNeg (l : List α) (k : Nat) : Except Err α :=
  if k ≤ l.length ∧ 1 ≤ k then pyIdx l (l.length - k) else .error .indexError

/-- Python `l[-1]` for `l.split()` results (`IndexError` on an empty list). -/
def pyLast (l : List α) : Except Err α :=
  match l with
  | [] => .error .indexError
  | a :: as => .ok ((a :: as).getLast (by simp))

/-- One match of the numeric regex `-?\d[.]\d*E[-+]\d*`.  In the mandatory
sections the second position is the literal `'.'` (`strict = true`,
pattern `-?\d\.\d*E[-+]\d*`); in the optional tail the source's pattern is
`-?\d.\d*E[-+]\d*` with an unescaped dot matching any character
(`strict = false`). -/
structure NumTok where
  neg : Bool
  lead : Char
  dot : Char
  frac : List Char
  esign : Char
  edigs : List Char
  deriving DecidableEq, Repr

/-- Take the maximal run of digits from the front (`\d*`, greedy). -/
def takeDigits : Line → List Char × Line
  | [] => ([], [])
  | c :: cs =>
    if isDigit c then
      let (ds, rest) := takeDigits cs
      (c :: ds, rest)
    else ([], c :: cs)

/-- Try to match the numeric regex at the head of the line; on success
return the token and the unconsumed suffix.  The regex engine is
deterministic here: `\d*` (digits) never overlaps `E`/`[-+]`, so greedy
matching needs no backtracking, and the optional leading `-` can only
succeed when followed by a digit. -/
def matchNum (strict : Bool) (l : Line) : Option (NumTok × Line) :=
  match l with
  | '-' :: rest => (matchCore strict rest).map (fun (t, r) => ({ t with neg := true }, r))
  | _ => matchCore strict l
where
  matchCore (strict : Bool) : Line → Option (NumTok × Line)
    | d :: x :: rest =>
      if isDigit d ∧ (if strict then x = '.' else True) then
        let (fr, rest') := takeDigits rest
        match rest' with
        | 'E' :: s :: rest'' =>
          if s = '+' ∨ s = '-' then
            let (ed, rest''') := takeDigits rest''
            some ({ neg := false, lead := d, dot := x, frac := fr,
                    esign := s, edigs := ed }, rest''')
          else none
        | _ => none
      else none
    | _ => none

/-- `re.findall(pat, line)`: scan left to right; at each position emit the
match starting there if any and resume after it, otherwise advance one
character. -/
def findall (strict : Bool) (l : Line) : List NumTok :=
  go l.length l
where
  go : Nat → Line → List NumTok
    | 0, _ => []
    | _, [] => []
    | fuel + 1, l@(_ :: cs) =>
      match matchNum strict l with
      | some (t, rest) => t :: go fuel rest
      | none => go fuel cs

/-- Python `float()` applied to the matched substring.  With the strict
pattern the text is always `d.dddE±ddd`; the value is
`±(d.frac)·10^(±edigs)` and `float` fails only when the exponent has no
digits (e.g. `float('1.5E+')`).  With the sloppy tail pattern the dot
position may hold any character: a digit keeps the text a valid float
(`float('12E+3')`), anything else makes `float` raise `ValueError`. -/
def tokVal (t : NumTok) : Except Err ℚ :=
  if t.edigs = [] then .error .valueError
  else
    let e : Int := if t.esign = '-' then -(digitsToNat t.edigs : Int) else (digitsToNat t.edigs : Int)
    if t.dot = '.' then
      let m : ℚ := (digitVal t.lead : ℚ) + (digitsToNat t.frac : ℚ) / (10 : ℚ) ^ t.frac.length
      .ok ((if t.neg then -m else m) * (10 : ℚ) ^ e)
    else if isDigit t.dot then
      let m : ℚ := (digitsToNat (t.lead :: t.dot :: t.frac) : ℚ)
      .ok ((if t.neg then -m else m) * (10 : ℚ) ^ e)
    else .error .valueError

/-! ## Line-stream primitives

`EqdskReader.__init__` iterates `csv.reader(gfile)`; for the comma- and
quote-free lines of a g-file a row is `[line]` when the line is non-empty
and `[]` for an empty line, so `next(reader)[0]` yields the text before
the first comma, raises `StopIteration` at end of stream and `IndexError`
on an empty line.  Consumed lines stay consumed even when a later step of
the same statement fails. -/

/-- `row[0]` of a csv row: the text before the first comma. -/
def commaCut (l : Line) : Line := l.takeWhile (· ≠ ',')

/-- `line = next(reader)[0]`: returns the first field and the rest of the
stream; the line is consumed even when indexing it fails. -/
def nextField0 : List Line → Except Err Line × List Line
  | [] => (.error .stopIteration, [])
  | l :: ls => if l = [] then (.error .indexError, ls) else (.ok (commaCut l), ls)

/-- `re.findall(pat, line)` followed by `float(val)` for each match,
in order (the source appends `float(val)` inside the per-line loop). -/
def lineVals (strict : Bool) (f : Line) : Except Err (List ℚ) :=
  (findall strict f).mapM tokVal

/-- The per-section loop `for i in range(nrows): line = next(reader)[0];
line = re.findall(...); for val in line: xs.append(float(val))`:
consume `k` lines, tokenize each, concatenate the values in line order. -/
def readFlatS (strict : Bool) : Nat → List Line → Except Err (List ℚ) × List Line
  | 0, ls => (.ok [], ls)
  | k + 1, ls =>
    match nextField0 ls with
    | (.error e, ls') => (.error e, ls')
    | (.ok f, ls') =>
      match lineVals strict f with
      | .error e => (.error e, ls')
      | .ok vs =>
        match readFlatS strict k ls' with
        | (.ok rest, ls'') => (.ok (vs ++ rest), ls'')
        | (.error e, ls'') => (.error e, ls'')

/-- `nrows = n/5; if n % 5 != 0: nrows += 1` (Python 2 integer division;
the counts reaching this are non-negative). -/
def sectionRows (n : Nat) : Nat := n / 5 + (if n % 5 = 0 then 0 else 1)

/-- Same row count on a Python `int` (`npts = 2*nbbbs` may be negative, in
which case `range(nrows)` is empty); Python 2 `/` and `%` are floor
division and non-negative remainder for the positive divisor 5. -/
def sectionRowsI (npts : Int) : Nat :=
  (npts.ediv 5 + (if npts.emod 5 = 0 then 0 else 1)).toNat

/-- `scipy.array(xs).reshape((n,1))`: succeeds exactly when the flat
array has `n` entries (the column shape adds nothing, so the result is
kept one-dimensional). -/
def reshapeCol (n : Nat) (xs : List ℚ) : Except Err (List ℚ) :=
  if xs.length = n then .ok xs else .error .valueError

/-- One `n`-value section at 5 values per line: the loop followed by the
`reshape((n,1))`, threading the stream position through failures. -/
def readSection (strict : Bool) (n : Nat) (ls : List Line) :
    Except Err (List ℚ) × List Line :=
  match readFlatS strict (sectionRows n) ls with
  | (.ok vs, ls') => (reshapeCol n vs, ls')
  | (.error e, ls') => (.error e, ls')

/-- Mandatory-section variant: a failure propagates, the stream position
after a failure is irrelevant. -/
def readSectionE (strict : Bool) (n : Nat) (ls : List Line) :
    Except Err (List ℚ × List Line) :=
  match readSection strict n ls with
  | (.ok vs, ls') => .ok (vs, ls')
  | (.error e, _) => .error e

/-- Flat read for the sections that reshape differently (psiRZ, the
boundary and limiter polygons). -/
def readFlatE (strict : Bool) (k : Nat) (ls : List Line) :
    Except Err (List ℚ × List Line) :=
  match readFlatS strict k ls with
  | (.ok vs, ls') => .ok (vs, ls')
  | (.error e, _) => .error e

/-- `scipy.array(psis).reshape((1,nh,nw),order='C')`: row-major repack,
leading singleton time axis, `nh` rows of `nw` values. -/
def reshapePsiRZ (nh nw : Nat) (xs : List ℚ) : Except Err (List (List (List ℚ))) :=
  if xs.length = nh * nw then
    .ok [(List.range nh).map (fun i => (xs.drop (i * nw)).take nw)]
  else .error .valueError

/-- Elements at even positions (row 0 of a `(2,m)` Fortran-order reshape). -/
def stride2 : List α → List α
  | [] => []
  | [x] => [x]
  | x :: _ :: rest => x :: stride2 rest

/-- `scipy.array(xs).reshape((2,n),order='F')` split into its two rows:
Fortran order interleaves, so row 0 holds the even-index flat entries and
row 1 the odd-index ones.  `n` is a Python int: `-1` lets numpy infer the
column count (flat length must be even), any other negative value or a
length mismatch is a `ValueError`. -/
def reshape2F (n : Int) (xs : List ℚ) : Except Err (List ℚ × List ℚ) :=
  if n = -1 then
    if xs.length % 2 = 0 then .ok (stride2 xs, stride2 (xs.drop 1)) else .error .valueError
  else if n < 0 then .error .valueError
  else if (xs.length : Int) = 2 * n then .ok (stride2 xs, stride2 (xs.drop 1))
  else .error .valueError

/-- `scipy.linspace a b n` for `n ≥ 0`: `n` evenly spaced samples from
`a` to `b` inclusive (`[a]` for `n = 1`). -/
def linspaceList (a b : ℚ) : Nat → List ℚ
  | 0 => []
  | 1 => [a]
  | n + 2 =>
    (List.range (n + 2)).map (fun i : Nat => a + (i : ℚ) * (b - a) / ((n : ℚ) + 1))

/-- `scipy.linspace` on the Python int `num` read from the header:
raises `ValueError` for a negative sample count. -/
def linspace (a b : ℚ) (num : Int) : Except Err (List ℚ) :=
  if num < 0 then .error .valueError else .ok (linspaceList a b num.toNat)

/-! ## Header and grid-construction lines -/

/-- Fields taken from the g-file header line (source lines 162‑174). -/
structure HeaderData where
  date : Line
  shot : Int
  tunits : Line
  time : ℚ
  nw : Int
  nh : Int
  deriving Repr

/-- `timeConvertDict = {'ms': 1/1000, 's': 1}`; a `KeyError` for any
other unit string. -/
def timeConvert (u : Line) : Except Err ℚ :=
  if u = ['m', 's'] then .ok (1 / 1000)
  else if u = ['s'] then .ok 1
  else .error .keyError

/-- The header line: `line = next(reader)[0].split()`, then
`date = line[1]`, `shot = int(re.split('\\D', line[-5])[-1])`,
`timestring = line[-4]`, `nw = int(line[-2])`, `nh = int(line[-1])`, and
the time value `float(re.findall('\\d+', timestring)[0])` scaled by the
unit found after the digits. -/
def readHeader (ls : List Line) : Except Err (HeaderData × List Line) :=
  match nextField0 ls with
  | (.error e, _) => .error e
  | (.ok f, ls') => do
    let fields := splitWs f
    let date ← pyIdx fields 1
    let shotField ← pyIdxNeg fields 5
    let shotDigits ← pyLast (splitNonDigit shotField)
    let shot ← pyInt shotDigits
    let timestring ← pyIdxNeg fields 4
    let nw ← (pyIdxNeg fields 2).bind pyInt
    let nh ← (pyIdxNeg fields 1).bind pyInt
    let timeDigits ← pyIdx (findallDigits timestring) 0
    let tunits ← pyIdx (splitOnSep timeDigits timestring) 1
    let factor ← timeConvert tunits
    .ok ({ date, shot, tunits, time := (digitsToNat timeDigits : ℚ) * factor, nw, nh }, ls')

/-- The four grid-construction scalars kept from the second line
(`xdim = line[0]`, `zdim = line[1]`, `rgrid0 = line[3]`,
`zmid = line[4]`; `line[2]` is read past). -/
structure GridScalars where
  xdim : ℚ
  zdim : ℚ
  rgrid0 : ℚ
  zmid : ℚ
  deriving Repr

/-- The grid-construction line, scanned with the strict numeric regex. -/
def readGrid (ls : List Line) : Except Err (GridScalars × List Line) :=
  match nextField0 ls with
  | (.error e, _) => .error e
  | (.ok f, ls') => do
    let toks := findall true f
    let xdim ← (pyIdx toks 0).bind tokVal
    let zdim ← (pyIdx toks 1).bind tokVal
    let rgrid0 ← (pyIdx toks 3).bind tokVal
    let zmid ← (pyIdx toks 4).bind tokVal
    .ok ({ xdim, zdim, rgrid0, zmid }, ls')

/-! ## Mandatory sections (header through the limiter polygon) -/

/-- Everything `__init__` has stored by the end of the limiter read
(source lines 158‑323), plus the grid sizes `nw`, `nh` that stay live as
locals for the later sections. -/
structure MandData where
  header : HeaderData
  nw : Nat
  nh : Nat
  rGrid : List ℚ
  zGrid : List ℚ
  rmaxis : ℚ
  zmaxis : ℚ
  psiAxis : ℚ
  psiLCFS : ℚ
  bzero : ℚ
  IpCalc : ℚ
  fpol : List ℚ
  fluxPres : List ℚ
  ffprim : List ℚ
  pprime : List ℚ
  psiRZ : List (List (List ℚ))
  qpsi : List ℚ
  RLCFS : List ℚ
  ZLCFS : List ℚ
  xlim : List ℚ
  ylim : List ℚ

/-- The axis/LCFS scalar line (source lines 194‑200). -/
def readAxisScalars (ls : List Line) : Except Err ((ℚ × ℚ × ℚ × ℚ × ℚ) × List Line) :=
  match nextField0 ls with
  | (.error e, _) => .error e
  | (.ok f, ls') => do
    let toks := findall true f
    let rmaxis ← (pyIdx toks 0).bind tokVal
    let zmaxis ← (pyIdx toks 1).bind tokVal
    let psiAxis ← (pyIdx toks 2).bind tokVal
    let psiLCFS ← (pyIdx toks 3).bind tokVal
    let bzero ← (pyIdx toks 4).bind tokVal
    .ok ((rmaxis, zmaxis, psiAxis, psiLCFS, bzero), ls')

/-- The plasma-current line: only `float(line[0])` is kept (lines 206‑209). -/
def readIpCalc (ls : List Line) : Except Err (ℚ × List Line) :=
  match nextField0 ls with
  | (.error e, _) => .error e
  | (.ok f, ls') => do
    let ip ← (pyIdx (findall true f) 0).bind tokVal
    .ok (ip, ls')

/-- Line 212: `line = next(reader)[0]` — consumed, nothing kept. -/
def readDiscard (ls : List Line) : Except Err (List Line) :=
  match nextField0 ls with
  | (.error e, _) => .error e
  | (.ok _, ls') => .ok ls'

/-- The `nbbbs, limitr` count line (lines 287‑289). -/
def readCounts (ls : List Line) : Except Err ((Int × Int) × List Line) :=
  match nextField0 ls with
  | (.error e, _) => .error e
  | (.ok f, ls') => do
    let fields := splitWs f
    let nbbbs ← (pyIdx fields 0).bind pyInt
    let limitr ← (pyIdx fields 1).bind pyInt
    .ok ((nbbbs, limitr), ls')

/-- Sections 1‑10 of the g-file grammar in source order; any failure here
propagates to the caller. -/
def readMandatory (ls : List Line) : Except Err (MandData × List Line) := do
  let (hd, ls1) ← readHeader ls
  let (gs, ls2) ← readGrid ls1
  let rGrid ← linspace gs.rgrid0 (gs.rgrid0 + gs.xdim) hd.nw
  let zGrid ← linspace (gs.zmid - gs.zdim / 2) (gs.zmid + gs.zdim / 2) hd.nh
  let nw := hd.nw.toNat
  let nh := hd.nh.toNat
  let ((rmaxis, zmaxis, psiAxis, psiLCFS, bzero), ls3) ← readAxisScalars ls2
  let (ipCalc, ls4) ← readIpCalc ls3
  let ls5 ← readDiscard ls4
  let (fpol, ls6) ← readSectionE true nw ls5
  let (fluxPres, ls7) ← readSectionE true nw ls6
  let (ffprim, ls8) ← readSectionE true nw ls7
  let (pprime, ls9) ← readSectionE true nw ls8
  let (psis, ls10) ← readFlatE true (sectionRows (nw * nh)) ls9
  let psiRZ ← reshapePsiRZ nh nw psis
  let (qpsi, ls11) ← readSectionE true nw ls10
  let ((nbbbs, limitr), ls12) ← readCounts ls11
  let (bbbs, ls13) ← readFlatE true (sectionRowsI (2 * nbbbs)) ls12
  let (rlcfs, zlcfs) ← reshape2F nbbbs bbbs
  let (lim, ls14) ← readFlatE true (sectionRowsI (2 * limitr)) ls13
  let (xlim, ylim) ← reshape2F limitr lim
  .ok ({ header := hd, nw, nh, rGrid, zGrid, rmaxis, zmaxis, psiAxis, psiLCFS,
         bzero, IpCalc := ipCalc, fpol, fluxPres, ffprim, pprime, psiRZ, qpsi,
         RLCFS := rlcfs, ZLCFS := zlcfs, xlim, ylim }, ls14)

/-! ## The optional tail (source lines 328‑403) -/

/-- The five version-dependent fields; `[0]` models the sentinel
`scipy.atleast_2d(scipy.array([0]))`. -/
structure TailData where
  presw : List ℚ
  preswp : List ℚ
  dmion : List ℚ
  rhovn : List ℚ
  workk : List ℚ
  deriving Repr

def sentinelTail : TailData :=
  { presw := [0], preswp := [0], dmion := [0], rhovn := [0], workk := [0] }

/-- Source line 386: `line = gfile.readline.split()`.  `gfile.readline`
is the file object's bound method, referenced without calling it; a
method object has no `split` attribute, so the expression raises
`AttributeError` unconditionally and nothing is consumed from the file. -/
def readlineMethodSplit : Except Err (List Line) := .error .attributeError

/-- `if kvtor > 0:` read the rotational pressure and its derivative
(`nw` values each, sloppy regex), `else` default both to the sentinel
(source lines 336‑356). -/
def tailPresPair (kvtor : Int) (nw : Nat) (ls1 : List Line) :
    Except Err (List ℚ × List ℚ) × List Line :=
  if 0 < kvtor then
    match readSection false nw ls1 with
    | (.ok presw, ls2) =>
      match readSection false nw ls2 with
      | (.ok preswp, ls3) => (.ok (presw, preswp), ls3)
      | (.error e, ls3) => (.error e, ls3)
    | (.error e, ls2) => (.error e, ls2)
  else (.ok ([(0 : ℚ)], [(0 : ℚ)]), ls1)

/-- `if nmass > 0:` read the ion mass density, `else` sentinel
(source lines 359‑371). -/
def tailDmion (nmass : Int) (nw : Nat) (ls3 : List Line) :
    Except Err (List ℚ) × List Line :=
  if 0 < nmass then readSection false nw ls3 else (.ok [(0 : ℚ)], ls3)

/-- Source lines 385‑397: the keecur line via `gfile.readline.split()`
(which always raises, see `readlineMethodSplit`) and the `keecur`-gated
work-function section that would follow it. -/
def tailKeecur (nw : Nat) (presw preswp dmion rhovn : List ℚ) (ls5 : List Line) :
    Except Err TailData × List Line :=
  match readlineMethodSplit with
  | .error e => (.error e, ls5)
  | .ok line =>
    match (pyIdx line 0).bind pyInt with
    | .error e => (.error e, ls5)
    | .ok keecur =>
      match (if 0 < keecur then readSection false nw ls5
             else ((.ok [(0 : ℚ)] : Except Err (List ℚ)), ls5)) with
      | (.error e, ls6) => (.error e, ls6)
      | (.ok workk, ls6) =>
        (.ok { presw, preswp, dmion, rhovn, workk }, ls6)

/-- The optional tail, before the catch-all: kvtor/rvtor/nmass line, the
gated rotational-pressure pair, the gated ion-mass density, `rhovn`, then
the `keecur` step.  The stream position is threaded even through
failures, because the underlying iterator keeps whatever was consumed
before the exception. -/
def readTailRaw (nw : Nat) (ls : List Line) : Except Err TailData × List Line :=
  match nextField0 ls with
  | (.error e, ls1) => (.error e, ls1)
  | (.ok f, ls1) =>
    match (pyIdx (splitWs f) 0).bind pyInt with
    | .error e => (.error e, ls1)
    | .ok kvtor =>
      match (pyIdx (splitWs f) 2).bind pyInt with
      | .error e => (.error e, ls1)
      | .ok nmass =>
        match tailPresPair kvtor nw ls1 with
        | (.error e, ls3) => (.error e, ls3)
        | (.ok (presw, preswp), ls3) =>
          match tailDmion nmass nw ls3 with
          | (.error e, ls4) => (.error e, ls4)
          | (.ok dmion, ls4) =>
            match readSection false nw ls4 with
            | (.error e, ls5) => (.error e, ls5)
            | (.ok rhovn, ls5) => tailKeecur nw presw preswp dmion rhovn ls5

/-- The `try:/except:` around the whole tail: any failure anywhere in it
resets all five fields to the sentinel; lines consumed before the failure
stay consumed. -/
def readTailCaught (nw : Nat) (ls : List Line) : TailData × List Line :=
  match readTailRaw nw ls with
  | (.ok t, ls') => (t, ls')
  | (.error _, ls') => (sentinelTail, ls')

/-- Source lines 406‑409: drain the remaining rows keeping the last
`row[0]`, then `efittype = r.split()[-1]` (an empty remainder or an
empty final split raises `IndexError`; an empty drained line raises it
inside the loop). -/
def readFooter (ls : List Line) : Except Err Line :=
  go [] ls
where
  go (r : Line) : List Line → Except Err Line
    | [] => pyLast (splitWs r)
    | l :: rest => if l = [] then .error .indexError else go (commaCut l) rest

/-! ## The equilibrium record -/

/-- The attributes `EqdskReader.__init__` stores.  One-element arrays
(`scipy.array([x])`) are held as their scalar; profile arrays of shape
`(n,1)` as plain lists; `psiRZ` keeps its `(1,nh,nw)` nesting.  The
a-file attributes start as `None` (source lines 415‑493). -/
structure EqdskRecord where
  date : Line
  shot : Int
  tunits : Line
  time : ℚ
  rGrid : List ℚ
  zGrid : List ℚ
  rmaxis : ℚ
  zmaxis : ℚ
  psiAxis : ℚ
  psiLCFS : ℚ
  bzero : ℚ
  IpCalc : ℚ
  fpol : List ℚ
  fluxPres : List ℚ
  ffprim : List ℚ
  pprime : List ℚ
  psiRZ : List (List (List ℚ))
  qpsi : List ℚ
  RLCFS : List ℚ
  ZLCFS : List ℚ
  xlim : List ℚ
  ylim : List ℚ
  presw : List ℚ
  preswp : List ℚ
  dmion : List ℚ
  rhovn : List ℚ
  workk : List ℚ
  efittype : Line
  currentSign : Option Int := none
  btaxp : Option ℚ := none
  btaxv : Option ℚ := none
  bpolav : Option ℚ := none
  IpMeas : Option ℚ := none
  q0 : Option ℚ := none
  q95 : Option ℚ := none
  qLCFS : Option ℚ := none
  rq1 : Option ℚ := none
  rq2 : Option ℚ := none
  rq3 : Option ℚ := none
  kappa : Option ℚ := none
  dupper : Option ℚ := none
  dlower : Option ℚ := none
  rmag : Option ℚ := none
  zmag : Option ℚ := none
  aLCFS : Option ℚ := none
  areaLCFS : Option ℚ := none
  RmidLCFS : Option ℚ := none
  betat : Option ℚ := none
  betap : Option ℚ := none
  Li : Option ℚ := none
  diamag : Option ℚ := none
  betatd : Option ℚ := none
  betapd : Option ℚ := none
  WDiamag : Option ℚ := none
  tauDiamag : Option ℚ := none
  WMHD : Option ℚ := none
  tauMHD : Option ℚ := none
  Pinj : Option ℚ := none
  Wbdot : Option ℚ := none
  Wpdot : Option ℚ := none
  volLCFS : Option ℚ := none

instance : Inhabited EqdskRecord :=
  ⟨{ date := [], shot := 0, tunits := [], time := 0, rGrid := [], zGrid := [],
     rmaxis := 0, zmaxis := 0, psiAxis := 0, psiLCFS := 0, bzero := 0,
     IpCalc := 0, fpol := [], fluxPres := [], ffprim := [], pprime := [],
     psiRZ := [], qpsi := [], RLCFS := [], ZLCFS := [], xlim := [], ylim := [],
     presw := [], preswp := [], dmion := [], rhovn := [], workk := [],
     efittype := [] }⟩

/-- Assemble the record from the three phases; the sign cache and every
a-file attribute are initialised unset. -/
def buildRecord (m : MandData) (t : TailData) (ef : Line) : EqdskRecord :=
  { date := m.header.date, shot := m.header.shot, tunits := m.header.tunits,
    time := m.header.time, rGrid := m.rGrid, zGrid := m.zGrid,
    rmaxis := m.rmaxis, zmaxis := m.zmaxis, psiAxis := m.psiAxis,
    psiLCFS := m.psiLCFS, bzero := m.bzero, IpCalc := m.IpCalc,
    fpol := m.fpol, fluxPres := m.fluxPres, ffprim := m.ffprim,
    pprime := m.pprime, psiRZ := m.psiRZ, qpsi := m.qpsi,
    RLCFS := m.RLCFS, ZLCFS := m.ZLCFS, xlim := m.xlim, ylim := m.ylim,
    presw := t.presw, preswp := t.preswp, dmion := t.dmion,
    rhovn := t.rhovn, workk := t.workk, efittype := ef }

/-- The whole g-file read of `EqdskReader.__init__`: mandatory sections,
the caught optional tail, the footer drain. -/
def parseGFile (ls : List Line) : Except Err EqdskRecord :=
  match readMandatory ls with
  | .error e => .error e
  | .ok (m, ls') =>
    match readFooter (readTailCaught m.nw ls').2 with
    | .error e => .error e
    | .ok ef => .ok (buildRecord m (readTailCaught m.nw ls').1 ef)

/-! ## Accessors (`data handlers`, source lines 1097‑1748)

Getters that can lazily fill the sign cache return the value together with
the possibly-updated record. -/

/-- `getIpCalc`: the stored EFIT-calculated plasma current (a one-element
array in the source; its `.copy()` has the same single value). -/
def getIpCalc (r : EqdskRecord) : ℚ := r.IpCalc

/-- `getCurrentSign`: on the first call compare
`scipy.mean(self.getIpCalc()) > 1e5` — the mean of the one-element
current array is the stored scalar — and cache `1` or `-1`; afterwards
return the cached value. -/
def getCurrentSign (r : EqdskRecord) : Int × EqdskRecord :=
  match r.currentSign with
  | some c => (c, r)
  | none =>
    let s : Int := if 100000 < getIpCalc r then 1 else -1
    (s, { r with currentSign := some s })

/-- `getFluxAxis`: `-1. * self.getCurrentSign() * scipy.array(self._psiAxis)`. -/
def getFluxAxis (r : EqdskRecord) : ℚ × EqdskRecord :=
  let (s, r') := getCurrentSign r
  ((-1 : ℚ) * (s : ℚ) * r.psiAxis, r')

/-- `getFluxLCFS`: `-1 * self.getCurrentSign() * scipy.array(self._psiLCFS)`. -/
def getFluxLCFS (r : EqdskRecord) : ℚ × EqdskRecord :=
  let (s, r') := getCurrentSign r
  ((-1 : ℚ) * (s : ℚ) * r.psiLCFS, r')

/-- The a-file gate shared by every a-file-only getter:
`if self._x is None: raise ValueError('must read a-file for this data.')
else: return self._x.copy()`. -/
def afileGet (v : Option ℚ) : Except Err ℚ :=
  match v with
  | none => .error .dataUnavailable
  | some x => .ok x

/-- The same gate for the length-scaled getters, which return
`unit_factor * self._x.copy()`. -/
def afileGetScaled (factor : ℚ) (v : Option ℚ) : Except Err ℚ :=
  match v with
  | none => .error .dataUnavailable
  | some x => .ok (factor * x)

/-- Modelled from the spec: `core.Equilibrium._getLengthConversionFactor`
lives in `core.py`, which is not under `src/`.  Per the spec a
length-scaled getter applies "a single multiplicative conversion factor
resolved from the field's recorded native unit to the requested unit";
the resolved factor is abstracted as a function of the native-unit string
recorded in `_defaultUnits`. -/
abbrev LengthConv := String → ℚ

def getElongation (r : EqdskRecord) : Except Err ℚ := afileGet r.kappa

def getUpperTriangularity (r : EqdskRecord) : Except Err ℚ := afileGet r.dupper

def getLowerTriangularity (r : EqdskRecord) : Except Err ℚ := afileGet r.dlower

def getQ0 (r : EqdskRecord) : Except Err ℚ := afileGet r.q0

def getQ95 (r : EqdskRecord) : Except Err ℚ := afileGet r.q95

def getQLCFS (r : EqdskRecord) : Except Err ℚ := afileGet r.qLCFS

def getQ1Surf (conv : LengthConv) (r : EqdskRecord) : Except Err ℚ :=
  afileGetScaled (conv "cm") r.rq1

def getQ2Surf (conv : LengthConv) (r : EqdskRecord) : Except Err ℚ :=
  afileGetScaled (conv "cm") r.rq2

def getQ3Surf (conv : LengthConv) (r : EqdskRecord) : Except Err ℚ :=
  afileGetScaled (conv "cm") r.rq3

def getBtVac (r : EqdskRecord) : Except Err ℚ := afileGet r.btaxv

def getBtPla (r : EqdskRecord) : Except Err ℚ := afileGet r.btaxp

def getBpAvg (r : EqdskRecord) : Except Err ℚ := afileGet r.bpolav

def getIpMeas (r : EqdskRecord) : Except Err ℚ := afileGet r.IpMeas

def getBetaT (r : EqdskRecord) : Except Err ℚ := afileGet r.betat

def getBetaP (r : EqdskRecord) : Except Err ℚ := afileGet r.betap

def getLi (r : EqdskRecord) : Except Err ℚ := afileGet r.Li

def getDiamagFlux (r : EqdskRecord) : Except Err ℚ := afileGet r.diamag

def getDiamagBetaT (r : EqdskRecord) : Except Err ℚ := afileGet r.betatd

def getDiamagBetaP (r : EqdskRecord) : Except Err ℚ := afileGet r.betapd

def getDiamagTauE (r : EqdskRecord) : Except Err ℚ := afileGet r.tauDiamag

def getDiamagWp (r : EqdskRecord) : Except Err ℚ := afileGet r.WDiamag

def getWMHD (r : EqdskRecord) : Except Err ℚ := afileGet r.WMHD

def getTauMHD (r : EqdskRecord) : Except Err ℚ := afileGet r.tauMHD

def getPinj (r : EqdskRecord) : Except Err ℚ := afileGet r.Pinj

def getWbdot (r : EqdskRecord) : Except Err ℚ := afileGet r.Wbdot

def getWpdot (r : EqdskRecord) : Except Err ℚ := afileGet r.Wpdot

def getMagR (conv : LengthConv) (r : EqdskRecord) : Except Err ℚ :=
  afileGetScaled (conv "cm") r.rmag

def getMagZ (conv : LengthConv) (r : EqdskRecord) : Except Err ℚ :=
  afileGetScaled (conv "cm") r.zmag

def getAreaLCFS (conv : LengthConv) (r : EqdskRecord) : Except Err ℚ :=
  afileGetScaled (conv "cm^2") r.areaLCFS

def getAOut (conv : LengthConv) (r : EqdskRecord) : Except Err ℚ :=
  afileGetScaled (conv "cm") r.aLCFS

def getRmidOut (conv : LengthConv) (r : EqdskRecord) : Except Err ℚ :=
  afileGetScaled (conv "m") r.RmidLCFS

def getVolLCFS (conv : LengthConv) (r : EqdskRecord) : Except Err ℚ :=
  afileGetScaled (conv "cm^3") r.volLCFS

/-- `getShaping`: elongation and both triangularities, or the same
a-file error if any constituent raises it (the source's
`try/except ValueError: raise ValueError('must read a-file...')`
re-raises the identical error). -/
def getShaping (r : EqdskRecord) : Except Err (ℚ × ℚ × ℚ) := do
  let kap ← getElongation r
  let du ← getUpperTriangularity r
  let dl ← getLowerTriangularity r
  .ok (kap, du, dl)

/-- `getGeometry`: `[Rmag, Zmag, AreaLCFS, aOut, RmidOut]`. -/
def getGeometry (conv : LengthConv) (r : EqdskRecord) :
    Except Err (ℚ × ℚ × ℚ × ℚ × ℚ) := do
  let rm ← getMagR conv r
  let zm ← getMagZ conv r
  let ar ← getAreaLCFS conv r
  let ao ← getAOut conv r
  let ro ← getRmidOut conv r
  .ok (rm, zm, ar, ao, ro)

/-- `getQs`: `[q0, q95, qLCFS, rq1, rq2, rq3]`. -/
def getQs (conv : LengthConv) (r : EqdskRecord) :
    Except Err (ℚ × ℚ × ℚ × ℚ × ℚ × ℚ) := do
  let a ← getQ0 r
  let b ← getQ95 r
  let c ← getQLCFS r
  let d ← getQ1Surf conv r
  let e ← getQ2Surf conv r
  let f ← getQ3Surf conv r
  .ok (a, b, c, d, e, f)

/-- `getFields`: `[BtVac, BtPla, BpAvg]`. -/
def getFields (r : EqdskRecord) : Except Err (ℚ × ℚ × ℚ) := do
  let v ← getBtVac r
  let p ← getBtPla r
  let a ← getBpAvg r
  .ok (v, p, a)

/-- `getBetas`: `[betat, betap, Li]`. -/
def getBetas (r : EqdskRecord) : Except Err (ℚ × ℚ × ℚ) := do
  let t ← getBetaT r
  let p ← getBetaP r
  let l ← getLi r
  .ok (t, p, l)

/-- `getDiamag`: `[diaFlux, diaBetat, diaBetap, diaTauE, diaWp]`. -/
def getDiamag (r : EqdskRecord) : Except Err (ℚ × ℚ × ℚ × ℚ × ℚ) := do
  let f ← getDiamagFlux r
  let bt ← getDiamagBetaT r
  let bp ← getDiamagBetaP r
  let ta ← getDiamagTauE r
  let wp ← getDiamagWp r
  .ok (f, bt, bp, ta, wp)

/-- `getEnergy`: `[WMHD, tauMHD, Pinj, Wbdot, Wpdot]`. -/
def getEnergy (r : EqdskRecord) : Except Err (ℚ × ℚ × ℚ × ℚ × ℚ) := do
  let w ← getWMHD r
  let t ← getTauMHD r
  let p ← getPinj r
  let wb ← getWbdot r
  let wp ← getWpdot r
  .ok (w, t, p, wb, wp)

/-! ## The a-file read (source lines 535‑602) -/

/-- The scalar fields the black-box `AFileReader` exposes, under their
a-file names. -/
structure AFileData where
  btaxp : ℚ
  btaxv : ℚ
  bpolav : ℚ
  pasmat : ℚ
  qqmin : ℚ
  qpsib : ℚ
  qout : ℚ
  aaq1 : ℚ
  aaq2 : ℚ
  aaq3 : ℚ
  eout : ℚ
  doutu : ℚ
  doutl : ℚ
  rmagx : ℚ
  zmagx : ℚ
  aout : ℚ
  areao : ℚ
  rmidout : ℚ
  betat : ℚ
  betap : ℚ
  ali : ℚ
  diamag : ℚ
  betatd : ℚ
  betapd : ℚ
  wplasmd : ℚ
  taudia : ℚ
  wplasm : ℚ
  taumhd : ℚ
  pbinj : ℚ
  wbdot : ℚ
  wpdot : ℚ
  vout : ℚ

/-- `readAFile` with a successfully opened reader: populate every
a-file attribute from the reader's fields (one-element arrays in the
source, scalars here). -/
def readAFile (r : EqdskRecord) (afr : AFileData) : EqdskRecord :=
  { r with
    btaxp := some afr.btaxp, btaxv := some afr.btaxv,
    bpolav := some afr.bpolav, IpMeas := some afr.pasmat,
    q0 := some afr.qqmin, q95 := some afr.qpsib, qLCFS := some afr.qout,
    rq1 := some afr.aaq1, rq2 := some afr.aaq2, rq3 := some afr.aaq3,
    kappa := some afr.eout, dupper := some afr.doutu,
    dlower := some afr.doutl, rmag := some afr.rmagx,
    zmag := some afr.zmagx, aLCFS := some afr.aout,
    areaLCFS := some afr.areao, RmidLCFS := some afr.rmidout,
    betat := some afr.betat, betap := some afr.betap, Li := some afr.ali,
    diamag := some afr.diamag, betatd := some afr.betatd,
    betapd := some afr.betapd, WDiamag := some afr.wplasmd,
    tauDiamag := some afr.taudia, WMHD := some afr.wplasm,
    tauMHD := some afr.taumhd, Pinj := some afr.pbinj,
    Wbdot := some afr.wbdot, Wpdot := some afr.wpdot,
    volLCFS := some afr.vout }

/-! ## ndarray aliasing (`getParam` vs the named getters)

The named getters end in `self._x.copy()`; `getParam` instead guards its
copy with `type(attr) is scipy.array`.  To talk about aliasing we give the
ndarray-valued attributes an explicit store: a heap of array contents
addressed by `Nat`, with the record holding addresses. -/

structure Heap where
  cells : List (List ℚ)
  deriving Repr

/-- Contents at an address. -/
def Heap.read (h : Heap) (a : Nat) : List ℚ := h.cells.getD a []

/-- `arr.copy()`: a fresh array with the same contents. -/
def Heap.alloc (h : Heap) (v : List ℚ) : Nat × Heap :=
  (h.cells.length, ⟨h.cells ++ [v]⟩)

/-- In-place mutation of the array at an address (`arr[:] = ...`). -/
def Heap.write (h : Heap) (a : Nat) (v : List ℚ) : Heap :=
  ⟨h.cells.set a v⟩

/-- The ndarray-valued attributes we track by reference. -/
structure ArrAttrs where
  fluxPres : Nat
  qpsi : Nat

/-- `getFluxPres`: `return self._fluxPres.copy()`. -/
def getFluxPresRef (s : ArrAttrs) (h : Heap) : Nat × Heap :=
  h.alloc (h.read s.fluxPres)

/-- `getQProfile`: `return self._qpsi.copy()`. -/
def getQProfileRef (s : ArrAttrs) (h : Heap) : Nat × Heap :=
  h.alloc (h.read s.qpsi)

/-- `type(attr) is scipy.array` (source line 1743): `scipy.array` is
numpy's array-constructor *function*, not the `ndarray` type, so the
identity test is `False` for every attribute. -/
def typeIsScipyArray : Bool := false

/-- The array branch of `getParam` once `__getattribute__('_'+name)` has
found the stored ndarray: copy only when the type guard holds, otherwise
hand back the stored reference itself. -/
def getParamArr (addr : Nat) (h : Heap) : Nat × Heap :=
  if typeIsScipyArray then h.alloc (h.read addr) else (addr, h)

/-- `getParam(name)` over the tracked attributes: resolve `'_'+name`,
raising `AttributeError` for an unknown name. -/
def getParam (s : ArrAttrs) (name : Line) (h : Heap) : Except Err (Nat × Heap) :=
  if name = "fluxPres".toList then .ok (getParamArr s.fluxPres h)
  else if name = "qpsi".toList then .ok (getParamArr s.qpsi h)
  else .error .attributeError

/-! ## Concrete inputs -/

instance : Inhabited HeaderData := ⟨{ date := [], shot := 0, tunits := [], time := 0, nw := 0, nh := 0 }⟩

instance : Inhabited GridScalars := ⟨{ xdim := 0, zdim := 0, rgrid0 := 0, zmid := 0 }⟩

instance : Inhabited MandData :=
  ⟨{ header := default, nw := 0, nh := 0, rGrid := [], zGrid := [], rmaxis := 0,
     zmaxis := 0, psiAxis := 0, psiLCFS := 0, bzero := 0, IpCalc := 0, fpol := [],
     fluxPres := [], ffprim := [], pprime := [], psiRZ := [], qpsi := [],
     RLCFS := [], ZLCFS := [], xlim := [], ylim := [] }⟩

/-- A minimal well-formed g-file: `nw = 2`, `nh = 2`, `nbbbs = limitr = 2`,
optional-tail flags `kvtor = 0`, `nmass = 0`, one `rhovn` line, footer tag
`magnetic`. -/
def gfileOk : List Line :=
  [ "EFITD 06/10/2024 #1 00875ms 3 2 2".toList,
    "0.1E+01 0.1E+01 0.0E+00 0.1E+01 0.0E+00".toList,
    "0.5E+00 0.0E+00 0.2E+00 0.4E+00 0.3E+01".toList,
    "0.2E+06 0.2E+00 0.0E+00 0.5E+00 0.0E+00".toList,
    "0.0E+00 0.0E+00 0.4E+00 0.0E+00 0.0E+00".toList,
    "0.1E+01 0.2E+01".toList,
    "0.3E+01 0.4E+01".toList,
    "0.5E+01 0.6E+01".toList,
    "0.7E+01 0.8E+01".toList,
    "0.1E+00 0.2E+00 0.3E+00 0.4E+00".toList,
    "0.1E+01 0.1E+01".toList,
    "2 2".toList,
    "0.1E+01 0.0E+00 0.2E+01 0.1E+00".toList,
    "0.9E+00 0.0E+00 0.2E+01 0.2E+00".toList,
    "0 0.0 0".toList,
    "0.0E+00 0.0E+00".toList,
    "EFITD magnetic".toList ]

/-- The record parsed from `gfileOk`. -/
def recGood : EqdskRecord :=
  match parseGFile gfileOk with
  | .ok r => r
  | .error _ => default

def hdGood : HeaderData :=
  match readHeader gfileOk with
  | .ok (h, _) => h
  | .error _ => default

def lsAfterHeader : List Line :=
  match readHeader gfileOk with
  | .ok (_, ls) => ls
  | .error _ => []

def gsGood : GridScalars :=
  match readGrid lsAfterHeader with
  | .ok (g, _) => g
  | .error _ => default

def lsAfterGrid : List Line :=
  match readGrid lsAfterHeader with
  | .ok (_, ls) => ls
  | .error _ => []

def mandGood : MandData :=
  match readMandatory gfileOk with
  | .ok (m, _) => m
  | .error _ => default

def lsAfterMand : List Line :=
  match readMandatory gfileOk with
  | .ok (_, ls) => ls
  | .error _ => []

/-- A g-file whose optional tail declares `kvtor = 1` (`nw = 2`, `nh = 1`)
and carries the two corresponding rotational-pressure lines plus the
`rhovn` line. -/
def gfileKvtor : List Line :=
  [ "EFITD 06/10/2024 #1 00875ms 3 2 1".toList,
    "0.1E+01 0.1E+01 0.0E+00 0.1E+01 0.0E+00".toList,
    "0.5E+00 0.0E+00 0.2E+00 0.4E+00 0.3E+01".toList,
    "0.2E+06 0.2E+00 0.0E+00 0.5E+00 0.0E+00".toList,
    "0.0E+00 0.0E+00 0.4E+00 0.0E+00 0.0E+00".toList,
    "0.1E+01 0.2E+01".toList,
    "0.3E+01 0.4E+01".toList,
    "0.5E+01 0.6E+01".toList,
    "0.7E+01 0.8E+01".toList,
    "0.1E+00 0.2E+00".toList,
    "0.1E+01 0.1E+01".toList,
    "1 1".toList,
    "0.1E+01 0.0E+00".toList,
    "0.9E+00 0.0E+00".toList,
    "1 0.0 0".toList,
    "0.5E+01 0.6E+01".toList,
    "0.7E+01 0.8E+01".toList,
    "0.0E+00 0.0E+00".toList,
    "EFITD kinetic".toList ]

/-- The record parsed from `gfileKvtor`. -/
def recKvtor : EqdskRecord :=
  match parseGFile gfileKvtor with
  | .ok r => r
  | .error _ => default

/-- A line carrying six strict-format values (one more than the per-line
capacity of five). -/
def sixValueLine : Line :=
  "0.1E+01 0.2E+01 0.3E+01 0.4E+01 0.5E+01 0.6E+01".toList

/-- A line carrying exactly two values, and the values a two-value
section read extracts from it. -/
def c6SecLine : Line := "0.1E+01 0.2E+01".toList

def c6Vals : List ℚ :=
  match readSection true 2 [c6SecLine] with
  | (.ok vs, _) => vs
  | _ => []

/-- The six values a one-line flat read extracts from `sixValueLine`. -/
def sixVals : List ℚ :=
  match readFlatS true (sectionRows 5) [sixValueLine] with
  | (.ok vs, _) => vs
  | _ => []

/-- A non-empty line with no numeric values at all. -/
def noValueLine : Line := "hello".toList

/-- Sample a-file contents, all fields distinct. -/
def afrSample : AFileData :=
  { btaxp := 1, btaxv := 2, bpolav := 3, pasmat := 4, qqmin := 5, qpsib := 6,
    qout := 7, aaq1 := 8, aaq2 := 9, aaq3 := 10, eout := 11, doutu := 12,
    doutl := 13, rmagx := 14, zmagx := 15, aout := 16, areao := 17,
    rmidout := 18, betat := 19, betap := 20, ali := 21, diamag := 22,
    betatd := 23, betapd := 24, wplasmd := 25, taudia := 26, wplasm := 27,
    taumhd := 28, pbinj := 29, wbdot := 30, wpdot := 31, vout := 32 }

/-- `recGood` after a successful a-file read. -/
def recAfter : EqdskRecord := readAFile recGood afrSample

/-- The identity conversion factor (native units requested). -/
def convOne : LengthConv := fun _ => 1

/-- A two-array heap and the attribute table pointing into it. -/
def heap9 : Heap := ⟨[[1, 2], [3, 4]]⟩

def attrs9 : ArrAttrs := { fluxPres := 0, qpsi := 1 }

/-- Records differing only in the stored calculated current, for the
sign-threshold checks (`2.0e5`, `-2.0e5`, `5.0e4`). -/
def rPos : EqdskRecord := { (default : EqdskRecord) with IpCalc := 200000 }

def rNeg : EqdskRecord := { (default : EqdskRecord) with IpCalc := -200000 }

def rSmall : EqdskRecord := { (default : EqdskRecord) with IpCalc := 50000 }

/-- Whether an `Except` result is a success. -/
def isOkE : Except Err α → Bool
  | .ok _ => true
  | .error _ => false

/-! ## Helper lemmas -/

theorem exceptBind_ok {α β : Type} {m : Except Err α} {f : α → Except Err β} {b : β}
    (h : m >>= f = .ok b) : ∃ a, m = .ok a ∧ f a = .ok b := by
  cases m with
  | ok a => exact ⟨a, rfl, h⟩
  | error e => simp [Bind.bind, Except.bind] at h

/-- The `keecur` step always fails with `AttributeError` and consumes
nothing: `gfile.readline.split()` evaluates `.split` on the
un-called method object. -/
theorem tailKeecur_eq (nw : Nat) (a b c d : List ℚ) (ls : List Line) :
    tailKeecur nw a b c d ls = (.error .attributeError, ls) := rfl

/-- Every run of the raw optional tail fails: each control path either
fails earlier or reaches the `gfile.readline.split()` read, which always
raises `AttributeError`. -/
theorem readTailRaw_isError (nw : Nat) (ls : List Line) :
    ∃ e ls', readTailRaw nw ls = (.error e, ls') := by
  unfold readTailRaw
  split
  · exact ⟨_, _, rfl⟩
  · split
    · exact ⟨_, _, rfl⟩
    · split
      · exact ⟨_, _, rfl⟩
      · split
        · exact ⟨_, _, rfl⟩
        · split
          · exact ⟨_, _, rfl⟩
          · split
            · exact ⟨_, _, rfl⟩
            · exact ⟨_, _, tailKeecur_eq _ _ _ _ _ _⟩

/-- Consequently the caught tail always yields the five-fold sentinel. -/
theorem readTailCaught_sentinel (nw : Nat) (ls : List Line) :
    (readTailCaught nw ls).1 = sentinelTail := by
  obtain ⟨e, ls', h⟩ := readTailRaw_isError nw ls
  unfold readTailCaught
  rw [h]

/-- Inversion of a successful parse into its three phases. -/
theorem parseGFile_ok_elim {ls : List Line} {rec : EqdskRecord}
    (h : parseGFile ls = .ok rec) :
    ∃ m ls' ef, readMandatory ls = .ok (m, ls') ∧
      readFooter (readTailCaught m.nw ls').2 = .ok ef ∧
      rec = buildRecord m (readTailCaught m.nw ls').1 ef := by
  unfold parseGFile at h
  split at h
  · cases h
  · rename_i m ls' heq
    split at h
    · cases h
    · rename_i ef hf
      cases h
      exact ⟨m, ls', ef, heq, hf, rfl⟩

/-- A successfully parsed record has the sign cache and every a-file
attribute unset (`buildRecord` leaves their defaults). -/
theorem parseGFile_ok_unset {ls : List Line} {rec : EqdskRecord}
    (h : parseGFile ls = .ok rec) :
    rec.currentSign = none ∧ rec.kappa = none ∧ rec.dupper = none ∧
    rec.dlower = none ∧ rec.q0 = none ∧ rec.q95 = none ∧ rec.qLCFS = none ∧
    rec.rq1 = none ∧ rec.rq2 = none ∧ rec.rq3 = none ∧ rec.btaxv = none ∧
    rec.btaxp = none ∧ rec.bpolav = none ∧ rec.betat = none ∧
    rec.betap = none ∧ rec.Li = none ∧ rec.diamag = none ∧
    rec.betatd = none ∧ rec.betapd = none ∧ rec.tauDiamag = none ∧
    rec.WDiamag = none ∧ rec.WMHD = none ∧ rec.tauMHD = none ∧
    rec.Pinj = none ∧ rec.Wbdot = none ∧ rec.Wpdot = none ∧
    rec.rmag = none ∧ rec.zmag = none ∧ rec.aLCFS = none ∧
    rec.areaLCFS = none ∧ rec.RmidLCFS = none ∧ rec.volLCFS = none ∧
    rec.IpMeas = none := by
  obtain ⟨m, ls', ef, _, _, hrec⟩ := parseGFile_ok_elim h
  subst hrec
  exact ⟨rfl, rfl, rfl, rfl, rfl, rfl, rfl, rfl, rfl, rfl, rfl, rfl, rfl, rfl,
         rfl, rfl, rfl, rfl, rfl, rfl, rfl, rfl, rfl, rfl, rfl, rfl, rfl, rfl,
         rfl, rfl, rfl, rfl, rfl⟩

/-- A second `getCurrentSign` call returns the identical value and state. -/
theorem getCurrentSign_stable (r : EqdskRecord) :
    getCurrentSign ((getCurrentSign r).2) = getCurrentSign r := by
  unfold getCurrentSign
  cases hc : r.currentSign <;> simp [hc]

/-- Filling the sign cache changes no other attribute (here: the flux
scalars it is combined with). -/
theorem getCurrentSign_preserves (r : EqdskRecord) :
    ((getCurrentSign r).2).psiAxis = r.psiAxis ∧
    ((getCurrentSign r).2).psiLCFS = r.psiLCFS := by
  unfold getCurrentSign
  cases hc : r.currentSign <;> simp [hc]

/-! ## C1 — the optional tail fails as a unit, mandatory failures propagate -/

/-- C1: during g-file parsing, a failure of any mandatory section
propagates unchanged to the caller; a failure anywhere inside the
optional tail is caught as a single unit, resetting all five optional
fields to the single-element zero sentinel; and once the mandatory
sections have succeeded, the overall parse succeeds or fails with the
footer alone — the tail's outcome can never fail it. -/
theorem c1_optional_tail_unit_catch :
    (∀ ls e, readMandatory ls = .error e → parseGFile ls = .error e) ∧
    (∀ nw ls e ls', readTailRaw nw ls = (.error e, ls') →
       readTailCaught nw ls = (sentinelTail, ls')) ∧
    (∀ ls m ls', readMandatory ls = .ok (m, ls') →
       (isOkE (parseGFile ls) = true ↔
        isOkE (readFooter (readTailCaught m.nw ls').2) = true)) := by
  refine ⟨?_, ?_, ?_⟩
  · intro ls e h
    unfold parseGFile
    rw [h]
  · intro nw ls e ls' h
    unfold readTailCaught
    rw [h]
  · intro ls m ls' h
    cases hf : readFooter (readTailCaught m.nw ls').2 <;>
      simp [parseGFile, h, hf, isOkE]

/-- Witness for C1: an empty first line is a mandatory-section failure
and kills the parse; an immediately exhausted tail is caught and yields
the sentinels; `gfileOk`'s parse succeeds together with its footer. -/
theorem c1_witness :
    parseGFile [[]] = .error .indexError ∧
    readTailCaught 1 [] = (sentinelTail, []) ∧
    isOkE (parseGFile gfileOk) = true :=
  ⟨c1_optional_tail_unit_catch.1 [[]] .indexError rfl,
   c1_optional_tail_unit_catch.2.1 1 [] .stopIteration [] rfl,
   (c1_optional_tail_unit_catch.2.2 gfileOk mandGood lsAfterMand rfl).mpr rfl⟩

/-! ## C3 — every accepted g-file ends with all five tail fields sentinel -/

/-- C3: for every g-file the parser accepts, the five optional tail
fields all equal the single-element zero sentinel: the keecur step
accesses `gfile.readline` without calling it and calls `split` on the
method object, which always raises, and the unit-wide handler then
resets all five fields. -/
theorem c3_tail_fields_always_sentinel (ls : List Line) (rec : EqdskRecord)
    (h : parseGFile ls = .ok rec) :
    rec.presw = [0] ∧ rec.preswp = [0] ∧ rec.dmion = [0] ∧
    rec.rhovn = [0] ∧ rec.workk = [0] := by
  obtain ⟨m, ls', ef, _, _, hrec⟩ := parseGFile_ok_elim h
  have hs := readTailCaught_sentinel m.nw ls'
  subst hrec
  rw [hs]
  exact ⟨rfl, rfl, rfl, rfl, rfl⟩

/-- Witness for C3 at the concrete file `gfileOk`. -/
theorem c3_witness :
    parseGFile gfileOk = .ok recGood ∧
    recGood.presw = [0] ∧ recGood.preswp = [0] ∧ recGood.dmion = [0] ∧
    recGood.rhovn = [0] ∧ recGood.workk = [0] :=
  ⟨rfl, c3_tail_fields_always_sentinel gfileOk recGood rfl⟩

/-! ## C4 — the current-sign threshold, laziness and caching -/

/-- C4: with the cache unset, `getCurrentSign` returns `1` exactly when
the mean of the stored calculated current exceeds `1e5` and `-1`
otherwise, and the call after it returns the identical cached value and
state; with the cache set, the cached value is returned and the record
is untouched. -/
theorem c4_currentSign_threshold_cache (r : EqdskRecord) :
    (r.currentSign = none →
       (((getCurrentSign r).1 = 1) ↔ 100000 < getIpCalc r) ∧
       (((getCurrentSign r).1 = -1) ↔ ¬ 100000 < getIpCalc r) ∧
       getCurrentSign ((getCurrentSign r).2) = getCurrentSign r) ∧
    (∀ c, r.currentSign = some c → getCurrentSign r = (c, r)) := by
  constructor
  · intro h
    refine ⟨?_, ?_, getCurrentSign_stable r⟩ <;>
      · unfold getCurrentSign
        rw [h]
        by_cases hc : 100000 < getIpCalc r <;> simp [hc]
  · intro c h
    unfold getCurrentSign
    rw [h]

/-- Witness for C4: means `2.0e5`, `-2.0e5` and `5.0e4` give signs `1`,
`-1`, `-1`, and the repeated call is stable. -/
theorem c4_witness :
    (getCurrentSign rPos).1 = 1 ∧ (getCurrentSign rNeg).1 = -1 ∧
    (getCurrentSign rSmall).1 = -1 ∧
    getCurrentSign ((getCurrentSign rPos).2) = getCurrentSign rPos :=
  ⟨((c4_currentSign_threshold_cache rPos).1 rfl).1.mpr (by decide),
   ((c4_currentSign_threshold_cache rNeg).1 rfl).2.1.mpr (by decide),
   ((c4_currentSign_threshold_cache rSmall).1 rfl).2.1.mpr (by decide),
   ((c4_currentSign_threshold_cache rPos).1 rfl).2.2⟩

/-! ## C5 — the flux getters flip by the current sign -/

/-- C5: on every parsed record, `getFluxAxis` returns
`-1 * currentSign * psiAxis` and `getFluxLCFS` returns
`-1 * currentSign * psiLCFS`, the lazily computed sign is `±1`, and the
values are unchanged when the getters run again on the state left by the
first call. -/
theorem c5_flux_sign_getters (ls : List Line) (r : EqdskRecord)
    (h : parseGFile ls = .ok r) :
    (getFluxAxis r).1 = -1 * ((getCurrentSign r).1 : ℚ) * r.psiAxis ∧
    (getFluxLCFS r).1 = -1 * ((getCurrentSign r).1 : ℚ) * r.psiLCFS ∧
    ((getCurrentSign r).1 = 1 ∨ (getCurrentSign r).1 = -1) ∧
    (getFluxAxis ((getFluxAxis r).2)).1 = (getFluxAxis r).1 ∧
    (getFluxLCFS ((getFluxLCFS r).2)).1 = (getFluxLCFS r).1 := by
  have hnone := (parseGFile_ok_unset h).1
  refine ⟨rfl, rfl, ?_, ?_, ?_⟩
  · unfold getCurrentSign
    rw [hnone]
    by_cases hc : 100000 < getIpCalc r <;> simp [hc]
  · show (getFluxAxis ((getCurrentSign r).2)).1 = _
    unfold getFluxAxis
    rw [getCurrentSign_stable, (getCurrentSign_preserves r).1]
  · show (getFluxLCFS ((getCurrentSign r).2)).1 = _
    unfold getFluxLCFS
    rw [getCurrentSign_stable, (getCurrentSign_preserves r).2]

/-- Witness for C5 at the concrete file `gfileOk`. -/
theorem c5_witness :
    (getFluxAxis recGood).1 = -1 * ((getCurrentSign recGood).1 : ℚ) * recGood.psiAxis ∧
    (getFluxLCFS recGood).1 = -1 * ((getCurrentSign recGood).1 : ℚ) * recGood.psiLCFS ∧
    ((getCurrentSign recGood).1 = 1 ∨ (getCurrentSign recGood).1 = -1) :=
  ⟨(c5_flux_sign_getters gfileOk recGood rfl).1,
   (c5_flux_sign_getters gfileOk recGood rfl).2.1,
   (c5_flux_sign_getters gfileOk recGood rfl).2.2.1⟩

/-! ## C6 and C7 — behaviour of the section reader -/

/-- A successful flat read of `k` lines leaves the stream exactly `k`
lines further on. -/
theorem readFlatS_ok_drop (strict : Bool) :
    ∀ (k : Nat) (ls : List Line) (vs : List ℚ) (ls' : List Line),
      readFlatS strict k ls = (.ok vs, ls') → ls' = ls.drop k := by
  intro k
  induction k with
  | zero =>
    intro ls vs ls' h
    simp only [readFlatS, Prod.mk.injEq] at h
    exact h.2.symm
  | succ k ih =>
    intro ls vs ls' h
    match ls with
    | [] => simp [readFlatS, nextField0] at h
    | l :: t =>
      by_cases hl : l = []
      · simp [readFlatS, nextField0, hl] at h
      · simp only [readFlatS, nextField0, hl, if_neg, ite_false] at h
        cases hv : lineVals strict (commaCut l) with
        | error e => rw [hv] at h; simp at h
        | ok vs0 =>
          rw [hv] at h
          rcases hr : readFlatS strict k t with ⟨res, t'⟩
          rw [hr] at h
          cases res with
          | error e => simp at h
          | ok rest =>
            simp only [Prod.mk.injEq, Except.ok.injEq] at h
            have ht := ih t rest t' hr
            rw [List.drop_succ_cons, ← h.2]
            exact ht

/-- Exhausting the stream before the declared line count fails. -/
theorem readFlatS_exhausted (strict : Bool) :
    ∀ (k : Nat) (ls : List Line), ls.length < k →
      ∃ e ls', readFlatS strict k ls = (.error e, ls') := by
  intro k
  induction k with
  | zero => intro ls h; omega
  | succ k ih =>
    intro ls h
    match ls with
    | [] => exact ⟨.stopIteration, [], rfl⟩
    | l :: t =>
      by_cases hl : l = []
      · exact ⟨.indexError, t, by simp [readFlatS, nextField0, hl]⟩
      · have ht : t.length < k := by simpa using h
        obtain ⟨e, ls', hr⟩ := ih t ht
        cases hv : lineVals strict (commaCut l) with
        | error e2 => exact ⟨e2, t, by simp [readFlatS, nextField0, hl, hv]⟩
        | ok vs0 => exact ⟨e, ls', by simp [readFlatS, nextField0, hl, hv, hr]⟩

/-- C6 (amended): a successful section read returns exactly `n` values
and consumes exactly `ceil(n/5)` lines; a flat read whose token total
differs from `n` makes the section fail with the reshape `ValueError`
(extra tokens are an error, not truncated away); exhausting the stream
before the declared line count fails the section. -/
theorem c6_section_exact_or_error (strict : Bool) (n : Nat) (ls : List Line) :
    (∀ vs ls', readSection strict n ls = (.ok vs, ls') →
       vs.length = n ∧ ls' = ls.drop (sectionRows n)) ∧
    (∀ vs ls', readFlatS strict (sectionRows n) ls = (.ok vs, ls') →
       vs.length ≠ n → (readSection strict n ls).1 = .error .valueError) ∧
    (ls.length < sectionRows n →
       ∃ e ls', readSection strict n ls = (.error e, ls')) := by
  refine ⟨?_, ?_, ?_⟩
  · intro vs ls' h
    unfold readSection at h
    rcases hr : readFlatS strict (sectionRows n) ls with ⟨res, rest⟩
    rw [hr] at h
    cases res with
    | error e => simp at h
    | ok vs0 =>
      dsimp only at h
      unfold reshapeCol at h
      by_cases hn : vs0.length = n
      · rw [if_pos hn] at h
        simp only [Prod.mk.injEq, Except.ok.injEq] at h
        refine ⟨h.1 ▸ hn, ?_⟩
        rw [← h.2]
        exact readFlatS_ok_drop strict (sectionRows n) ls vs0 rest hr
      · rw [if_neg hn] at h
        simp at h
  · intro vs ls' h hn
    unfold readSection
    rw [h]
    dsimp only
    unfold reshapeCol
    rw [if_neg hn]
  · intro hshort
    obtain ⟨e, ls', hr⟩ := readFlatS_exhausted strict (sectionRows n) ls hshort
    exact ⟨e, ls', by unfold readSection; rw [hr]⟩

/-- Counterexample to C6 as stated: a single consumed line carrying six
values makes the five-value section read fail with the reshape
`ValueError` instead of returning the first five values. -/
theorem c6_counterexample :
    Except.map List.length (lineVals true sixValueLine) = .ok 6 ∧
    (readSection true 5 [sixValueLine]).1 = .error .valueError :=
  ⟨rfl, rfl⟩

/-- Witness for C6 at concrete inputs: a two-value section read of one
two-value line succeeds with both values and consumes the line, and a
six-token flat result fails the five-value section. -/
theorem c6_witness :
    c6Vals.length = 2 ∧
    (readSection true 5 [sixValueLine]).1 = .error .valueError ∧
    (∃ e ls', readSection true 1 [] = (.error e, ls')) :=
  ⟨((c6_section_exact_or_error true 2 [c6SecLine]).1 c6Vals [] rfl).1,
   (c6_section_exact_or_error true 5 [sixValueLine]).2.1 sixVals [] rfl (by decide),
   (c6_section_exact_or_error true 1 []).2.2 (by decide)⟩

/-- C7 (amended): a non-empty line on which the tokenizer finds zero
values is not itself an error during a section read — it contributes no
values and the loop moves on; the mismatch only surfaces (if at all) at
the section's final count check. -/
theorem c7_zero_token_line_transparent (strict : Bool) (n : Nat) (l : Line)
    (ls : List Line) (hne : l ≠ []) (hz : lineVals strict (commaCut l) = .ok []) :
    readFlatS strict (n + 1) (l :: ls) = readFlatS strict n ls := by
  simp only [readFlatS, nextField0, hne, ite_false, hz]
  rcases hr : readFlatS strict n ls with ⟨res, rest⟩
  cases res <;> simp [hr]

/-- Counterexample to C7 as stated: a mandatory six-value section read
that consumes a line with six values and then a line with zero values
succeeds — the zero-value line is silently swallowed, with no
`FormatError`. -/
theorem c7_counterexample :
    noValueLine ≠ [] ∧ lineVals true noValueLine = .ok [] ∧
    isOkE (readSection true 6 [sixValueLine, noValueLine]).1 = true :=
  ⟨by decide, rfl, rfl⟩

/-- Witness for C7 at a concrete input. -/
theorem c7_witness :
    readFlatS true 1 [noValueLine] = readFlatS true 0 [] :=
  c7_zero_token_line_transparent true 0 noValueLine [] (by decide) rfl

/-! ## C2 — the `kvtor > 0` path never survives the tail bug -/

/-- C2 at the failing input: `gfileKvtor` declares `kvtor = 1` with
`nw = 2` and carries both rotational-pressure lines, yet after parsing
both fields are the single-element zero sentinel (not length-`nw`
arrays), because the keecur read raises and the unit-wide handler resets
the whole tail. -/
theorem c2_kvtor_data_discarded :
    parseGFile gfileKvtor = .ok recKvtor ∧
    recKvtor.rGrid.length = 2 ∧
    recKvtor.presw = [0] ∧ recKvtor.preswp = [0] ∧
    recKvtor.presw.length ≠ 2 ∧ recKvtor.preswp.length ≠ 2 :=
  ⟨rfl, rfl, rfl, rfl, by decide, by decide⟩

/-! ## C9 — `getParam` hands out the stored array itself -/

/-- C9 at the failing input: `getParam('fluxPres')` returns the stored
address with no copy (the `type(attr) is scipy.array` guard is `False`
because `scipy.array` is a function, not the ndarray type), so mutating
what it returned changes what `getFluxPres` reads afterwards; the named
getter itself allocates a fresh array, and mutating that fresh copy
leaves the stored array intact. -/
theorem c9_getParam_returns_alias :
    getParam attrs9 "fluxPres".toList heap9 = .ok (attrs9.fluxPres, heap9) ∧
    heap9.read attrs9.fluxPres = [1, 2] ∧
    (getFluxPresRef attrs9 (heap9.write attrs9.fluxPres [9, 9])).2.read
        (getFluxPresRef attrs9 (heap9.write attrs9.fluxPres [9, 9])).1 = [9, 9] ∧
    ([9, 9] : List ℚ) ≠ [1, 2] ∧
    (getFluxPresRef attrs9 heap9).1 ≠ attrs9.fluxPres ∧
    ((getFluxPresRef attrs9 heap9).2.write (getFluxPresRef attrs9 heap9).1
        [9, 9]).read attrs9.fluxPres = [1, 2] :=
  ⟨rfl, rfl, rfl, by decide, by decide, rfl⟩

/-! ## C8 — a-file gating of the single and composite getters -/

theorem afileGet_err_iff (v : Option ℚ) :
    afileGet v = .error .dataUnavailable ↔ v = none := by
  cases v <;> simp [afileGet]

theorem afileGetScaled_err_iff (c : ℚ) (v : Option ℚ) :
    afileGetScaled c v = .error .dataUnavailable ↔ v = none := by
  cases v <;> simp [afileGetScaled]

theorem getShaping_err_iff (r : EqdskRecord) :
    getShaping r = .error .dataUnavailable ↔
      (r.kappa = none ∨ r.dupper = none ∨ r.dlower = none) := by
  unfold getShaping getElongation getUpperTriangularity getLowerTriangularity
  cases r.kappa <;> cases r.dupper <;> cases r.dlower <;>
    simp [afileGet, Bind.bind, Except.bind]

theorem getGeometry_err_iff (conv : LengthConv) (r : EqdskRecord) :
    getGeometry conv r = .error .dataUnavailable ↔
      (r.rmag = none ∨ r.zmag = none ∨ r.areaLCFS = none ∨
       r.aLCFS = none ∨ r.RmidLCFS = none) := by
  unfold getGeometry getMagR getMagZ getAreaLCFS getAOut getRmidOut
  cases r.rmag <;> cases r.zmag <;> cases r.areaLCFS <;> cases r.aLCFS <;>
    cases r.RmidLCFS <;> simp [afileGetScaled, Bind.bind, Except.bind]

theorem getQs_err_iff (conv : LengthConv) (r : EqdskRecord) :
    getQs conv r = .error .dataUnavailable ↔
      (r.q0 = none ∨ r.q95 = none ∨ r.qLCFS = none ∨ r.rq1 = none ∨
       r.rq2 = none ∨ r.rq3 = none) := by
  unfold getQs getQ0 getQ95 getQLCFS getQ1Surf getQ2Surf getQ3Surf
  cases r.q0 <;> cases r.q95 <;> cases r.qLCFS <;> cases r.rq1 <;>
    cases r.rq2 <;> cases r.rq3 <;>
    simp [afileGet, afileGetScaled, Bind.bind, Except.bind]

theorem getFields_err_iff (r : EqdskRecord) :
    getFields r = .error .dataUnavailable ↔
      (r.btaxv = none ∨ r.btaxp = none ∨ r.bpolav = none) := by
  unfold getFields getBtVac getBtPla getBpAvg
  cases r.btaxv <;> cases r.btaxp <;> cases r.bpolav <;>
    simp [afileGet, Bind.bind, Except.bind]

theorem getBetas_err_iff (r : EqdskRecord) :
    getBetas r = .error .dataUnavailable ↔
      (r.betat = none ∨ r.betap = none ∨ r.Li = none) := by
  unfold getBetas getBetaT getBetaP getLi
  cases r.betat <;> cases r.betap <;> cases r.Li <;>
    simp [afileGet, Bind.bind, Except.bind]

theorem getDiamag_err_iff (r : EqdskRecord) :
    getDiamag r = .error .dataUnavailable ↔
      (r.diamag = none ∨ r.betatd = none ∨ r.betapd = none ∨
       r.tauDiamag = none ∨ r.WDiamag = none) := by
  unfold getDiamag getDiamagFlux getDiamagBetaT getDiamagBetaP
    getDiamagTauE getDiamagWp
  cases r.diamag <;> cases r.betatd <;> cases r.betapd <;>
    cases r.tauDiamag <;> cases r.WDiamag <;>
    simp [afileGet, Bind.bind, Except.bind]

theorem getEnergy_err_iff (r : EqdskRecord) :
    getEnergy r = .error .dataUnavailable ↔
      (r.WMHD = none ∨ r.tauMHD = none ∨ r.Pinj = none ∨
       r.Wbdot = none ∨ r.Wpdot = none) := by
  unfold getEnergy getWMHD getTauMHD getPinj getWbdot getWpdot
  cases r.WMHD <;> cases r.tauMHD <;> cases r.Pinj <;>
    cases r.Wbdot <;> cases r.Wpdot <;>
    simp [afileGet, Bind.bind, Except.bind]

/-- C8: every a-file-only getter fails with the a-file
`DataUnavailableError` exactly when its backing field is unset and
returns the stored value once it is set; every composite getter fails
with the same error exactly when any constituent field is missing; a
freshly parsed record fails all of them; and after a successful a-file
read each getter returns exactly the value the reader supplied. -/
theorem c8_afile_getter_gating (conv : LengthConv) (r : EqdskRecord) :
    ((getElongation r = .error .dataUnavailable ↔ r.kappa = none) ∧
     (getQ0 r = .error .dataUnavailable ↔ r.q0 = none) ∧
     (getWMHD r = .error .dataUnavailable ↔ r.WMHD = none)) ∧
    ((∀ v, r.kappa = some v → getElongation r = .ok v) ∧
     (∀ v, r.q0 = some v → getQ0 r = .ok v) ∧
     (∀ v, r.WMHD = some v → getWMHD r = .ok v)) ∧
    ((getShaping r = .error .dataUnavailable ↔
        (r.kappa = none ∨ r.dupper = none ∨ r.dlower = none)) ∧
     (getGeometry conv r = .error .dataUnavailable ↔
        (r.rmag = none ∨ r.zmag = none ∨ r.areaLCFS = none ∨
         r.aLCFS = none ∨ r.RmidLCFS = none)) ∧
     (getQs conv r = .error .dataUnavailable ↔
        (r.q0 = none ∨ r.q95 = none ∨ r.qLCFS = none ∨ r.rq1 = none ∨
         r.rq2 = none ∨ r.rq3 = none)) ∧
     (getFields r = .error .dataUnavailable ↔
        (r.btaxv = none ∨ r.btaxp = none ∨ r.bpolav = none)) ∧
     (getBetas r = .error .dataUnavailable ↔
        (r.betat = none ∨ r.betap = none ∨ r.Li = none)) ∧
     (getDiamag r = .error .dataUnavailable ↔
        (r.diamag = none ∨ r.betatd = none ∨ r.betapd = none ∨
         r.tauDiamag = none ∨ r.WDiamag = none)) ∧
     (getEnergy r = .error .dataUnavailable ↔
        (r.WMHD = none ∨ r.tauMHD = none ∨ r.Pinj = none ∨
         r.Wbdot = none ∨ r.Wpdot = none))) ∧
    (∀ ls rec, parseGFile ls = .ok rec →
       getElongation rec = .error .dataUnavailable ∧
       getQ0 rec = .error .dataUnavailable ∧
       getWMHD rec = .error .dataUnavailable ∧
       getShaping rec = .error .dataUnavailable ∧
       getGeometry conv rec = .error .dataUnavailable ∧
       getQs conv rec = .error .dataUnavailable ∧
       getFields rec = .error .dataUnavailable ∧
       getBetas rec = .error .dataUnavailable ∧
       getDiamag rec = .error .dataUnavailable ∧
       getEnergy rec = .error .dataUnavailable) ∧
    (∀ afr : AFileData,
       getElongation (readAFile r afr) = .ok afr.eout ∧
       getQ0 (readAFile r afr) = .ok afr.qqmin ∧
       getWMHD (readAFile r afr) = .ok afr.wplasm ∧
       getShaping (readAFile r afr) = .ok (afr.eout, afr.doutu, afr.doutl) ∧
       getFields (readAFile r afr) = .ok (afr.btaxv, afr.btaxp, afr.bpolav) ∧
       getBetas (readAFile r afr) = .ok (afr.betat, afr.betap, afr.ali) ∧
       getDiamag (readAFile r afr) =
         .ok (afr.diamag, afr.betatd, afr.betapd, afr.taudia, afr.wplasmd) ∧
       getEnergy (readAFile r afr) =
         .ok (afr.wplasm, afr.taumhd, afr.pbinj, afr.wbdot, afr.wpdot)) := by
  refine ⟨⟨afileGet_err_iff r.kappa, afileGet_err_iff r.q0, afileGet_err_iff r.WMHD⟩,
    ⟨?_, ?_, ?_⟩,
    ⟨getShaping_err_iff r, getGeometry_err_iff conv r, getQs_err_iff conv r,
     getFields_err_iff r, getBetas_err_iff r, getDiamag_err_iff r,
     getEnergy_err_iff r⟩, ?_, ?_⟩
  · intro v hv; unfold getElongation; rw [hv]; rfl
  · intro v hv; unfold getQ0; rw [hv]; rfl
  · intro v hv; unfold getWMHD; rw [hv]; rfl
  · intro ls rec hp
    obtain ⟨hsign, hkap, hdu, hdl, hq0, hq95, hqL, hrq1, hrq2, hrq3, hbv, hbp,
      hba, hbt, hbpp, hli, hdia, hbtd, hbpd, htd, hwd, hwm, htm, hpj, hwb, hwp,
      hrm, hzm, hal, har, hrmid, hvol, hipm⟩ := parseGFile_ok_unset hp
    refine ⟨(afileGet_err_iff _).mpr hkap, (afileGet_err_iff _).mpr hq0,
      (afileGet_err_iff _).mpr hwm, (getShaping_err_iff rec).mpr (.inl hkap),
      (getGeometry_err_iff conv rec).mpr (.inl hrm),
      (getQs_err_iff conv rec).mpr (.inl hq0),
      (getFields_err_iff rec).mpr (.inl hbv),
      (getBetas_err_iff rec).mpr (.inl hbt),
      (getDiamag_err_iff rec).mpr (.inl hdia),
      (getEnergy_err_iff rec).mpr (.inl hwm)⟩
  · intro afr
    exact ⟨rfl, rfl, rfl, rfl, rfl, rfl, rfl, rfl⟩

/-- Witness for C8: on the parsed `recGood` everything fails with the
a-file error; on `recAfter` (after reading `afrSample`) the getters
return exactly the stored sample values. -/
theorem c8_witness :
    getElongation recGood = .error .dataUnavailable ∧
    getShaping recGood = .error .dataUnavailable ∧
    getEnergy recGood = .error .dataUnavailable ∧
    getElongation recAfter = .ok 11 ∧
    getQ0 recAfter = .ok 5 ∧
    getWMHD recAfter = .ok 27 ∧
    getShaping recAfter = .ok (11, 12, 13) ∧
    getFields recAfter = .ok (2, 1, 3) :=
  ⟨((c8_afile_getter_gating convOne recGood).2.2.2.1 gfileOk recGood rfl).1,
   ((c8_afile_getter_gating convOne recGood).2.2.2.1 gfileOk recGood rfl).2.2.2.1,
   ((c8_afile_getter_gating convOne recGood).2.2.2.1 gfileOk recGood rfl).2.2.2.2.2.2.2.2.2,
   ((c8_afile_getter_gating convOne recGood).2.2.2.2 afrSample).1,
   ((c8_afile_getter_gating convOne recGood).2.2.2.2 afrSample).2.1,
   ((c8_afile_getter_gating convOne recGood).2.2.2.2 afrSample).2.2.1,
   ((c8_afile_getter_gating convOne recGood).2.2.2.2 afrSample).2.2.2.1,
   ((c8_afile_getter_gating convOne recGood).2.2.2.2 afrSample).2.2.2.2.1⟩

/-! ## C10 — axis lengths, monotonicity and flux-map shape -/

theorem linspaceList_length (a b : ℚ) (n : Nat) :
    (linspaceList a b n).length = n := by
  match n with
  | 0 => rfl
  | 1 => rfl
  | n + 2 => simp [linspaceList]

theorem linspaceList_chain' (a b : ℚ) (hab : a < b) (n : Nat) :
    List.Chain' (· < ·) (linspaceList a b n) := by
  match n with
  | 0 => simp [linspaceList]
  | 1 => simp [linspaceList]
  | n + 2 =>
    simp only [linspaceList]
    rw [List.chain'_map, List.chain'_range_succ]
    intro m hm
    have hstep : (0 : ℚ) < (b - a) / (n + 1) := by
      apply div_pos (sub_pos.mpr hab)
      positivity
    rw [mul_div_assoc, mul_div_assoc]
    apply add_lt_add_left
    apply mul_lt_mul_of_pos_right _ hstep
    exact_mod_cast Nat.lt_succ_self m

theorem linspace_ok_elim {a b : ℚ} {num : Int} {l : List ℚ}
    (h : linspace a b num = .ok l) :
    0 ≤ num ∧ l = linspaceList a b num.toNat := by
  unfold linspace at h
  split at h
  · cases h
  · rename_i hneg
    cases h
    exact ⟨Int.not_lt.mp hneg, rfl⟩

theorem reshapePsiRZ_ok_elim {nh nw : Nat} {xs : List ℚ}
    {p : List (List (List ℚ))} (h : reshapePsiRZ nh nw xs = .ok p) :
    xs.length = nh * nw ∧
    p = [(List.range nh).map (fun i => (xs.drop (i * nw)).take nw)] := by
  unfold reshapePsiRZ at h
  split at h
  · rename_i hlen
    cases h
    exact ⟨hlen, rfl⟩
  · cases h

/-- Inversion of the mandatory sections: a successful run fixes the grid
axes, the grid sizes and the flux-map shape in terms of the header and
grid-construction lines. -/
theorem readMandatory_ok_elim {ls : List Line} {m : MandData} {rest : List Line}
    (h : readMandatory ls = .ok (m, rest)) :
    ∃ hd ls1 gs ls2,
      readHeader ls = .ok (hd, ls1) ∧ readGrid ls1 = .ok (gs, ls2) ∧
      0 ≤ hd.nw ∧ 0 ≤ hd.nh ∧
      m.nw = hd.nw.toNat ∧ m.nh = hd.nh.toNat ∧
      m.rGrid = linspaceList gs.rgrid0 (gs.rgrid0 + gs.xdim) hd.nw.toNat ∧
      m.zGrid = linspaceList (gs.zmid - gs.zdim / 2) (gs.zmid + gs.zdim / 2)
        hd.nh.toNat ∧
      ∃ flat : List ℚ, flat.length = hd.nh.toNat * hd.nw.toNat ∧
        m.psiRZ = [(List.range hd.nh.toNat).map
          (fun i => (flat.drop (i * hd.nw.toNat)).take hd.nw.toNat)] := by
  unfold readMandatory at h
  obtain ⟨⟨hd, ls1⟩, h1, h⟩ := exceptBind_ok h
  obtain ⟨⟨gs, ls2⟩, h2, h⟩ := exceptBind_ok h
  obtain ⟨rg, h3, h⟩ := exceptBind_ok h
  obtain ⟨zg, h4, h⟩ := exceptBind_ok h
  obtain ⟨⟨⟨a1, a2, a3, a4, a5⟩, ls3⟩, h5, h⟩ := exceptBind_ok h
  obtain ⟨⟨ip, ls4⟩, h6, h⟩ := exceptBind_ok h
  obtain ⟨ls5, h7, h⟩ := exceptBind_ok h
  obtain ⟨⟨fp, ls6⟩, h8, h⟩ := exceptBind_ok h
  obtain ⟨⟨pres, ls7⟩, h9, h⟩ := exceptBind_ok h
  obtain ⟨⟨ff, ls8⟩, h10, h⟩ := exceptBind_ok h
  obtain ⟨⟨pp, ls9⟩, h11, h⟩ := exceptBind_ok h
  obtain ⟨⟨psis, ls10⟩, h12, h⟩ := exceptBind_ok h
  obtain ⟨prz, h13, h⟩ := exceptBind_ok h
  obtain ⟨⟨qp, ls11⟩, h14, h⟩ := exceptBind_ok h
  obtain ⟨⟨⟨nb, li⟩, ls12⟩, h15, h⟩ := exceptBind_ok h
  obtain ⟨⟨bb, ls13⟩, h16, h⟩ := exceptBind_ok h
  obtain ⟨⟨rl, zl⟩, h17, h⟩ := exceptBind_ok h
  obtain ⟨⟨lm, ls14⟩, h18, h⟩ := exceptBind_ok h
  obtain ⟨⟨xl, yl⟩, h19, h⟩ := exceptBind_ok h
  obtain ⟨hnw, hrg⟩ := linspace_ok_elim h3
  obtain ⟨hnh, hzg⟩ := linspace_ok_elim h4
  obtain ⟨hplen, hprz⟩ := reshapePsiRZ_ok_elim h13
  injection h with h'
  injection h' with hmEq hrest
  refine ⟨hd, ls1, gs, ls2, h1, h2, hnw, hnh, ?_, ?_, ?_, ?_, psis, hplen, ?_⟩
  · rw [← hmEq]
  · rw [← hmEq]
  · rw [← hmEq]
    exact hrg
  · rw [← hmEq]
    exact hzg
  · rw [← hmEq]
    exact hprz

/-- C10: for every accepted g-file, the reconstructed R axis has exactly
the header's `nw` entries and the Z axis exactly `nh`; each axis is
strictly increasing when the corresponding grid extent is positive; and
the stored flux map has shape `1 × nh × nw` with its leading singleton
time axis. -/
theorem c10_axes_and_flux_shape (ls : List Line) (rec : EqdskRecord)
    (hp : parseGFile ls = .ok rec)
    (hd : HeaderData) (ls1 : List Line) (hh : readHeader ls = .ok (hd, ls1))
    (gs : GridScalars) (ls2 : List Line) (hg : readGrid ls1 = .ok (gs, ls2)) :
    0 ≤ hd.nw ∧ 0 ≤ hd.nh ∧
    rec.rGrid.length = hd.nw.toNat ∧ rec.zGrid.length = hd.nh.toNat ∧
    (0 < gs.xdim → List.Chain' (· < ·) rec.rGrid) ∧
    (0 < gs.zdim → List.Chain' (· < ·) rec.zGrid) ∧
    rec.psiRZ.length = 1 ∧
    (∀ sl ∈ rec.psiRZ, sl.length = hd.nh.toNat ∧
       ∀ row ∈ sl, row.length = hd.nw.toNat) := by
  obtain ⟨m, lsx, ef, hm, _, hrec⟩ := parseGFile_ok_elim hp
  obtain ⟨hd', ls1', gs', ls2', hh', hg', hnw, hnh, _, _, hrG, hzG, flat,
    hflen, hpsi⟩ := readMandatory_ok_elim hm
  rw [hh] at hh'
  injection hh' with hh''
  injection hh'' with hdEq hls1Eq
  subst hdEq
  subst hls1Eq
  rw [hg] at hg'
  injection hg' with hg''
  injection hg'' with gsEq _
  subst gsEq
  subst hrec
  have hRg : (buildRecord m (readTailCaught m.nw lsx).1 ef).rGrid = m.rGrid := rfl
  have hZg : (buildRecord m (readTailCaught m.nw lsx).1 ef).zGrid = m.zGrid := rfl
  have hPm : (buildRecord m (readTailCaught m.nw lsx).1 ef).psiRZ = m.psiRZ := rfl
  refine ⟨hnw, hnh, ?_, ?_, ?_, ?_, ?_, ?_⟩
  · rw [hRg, hrG, linspaceList_length]
  · rw [hZg, hzG, linspaceList_length]
  · intro hx
    rw [hRg, hrG]
    exact linspaceList_chain' _ _ (lt_add_of_pos_right _ hx) _
  · intro hz
    rw [hZg, hzG]
    refine linspaceList_chain' _ _ ?_ _
    linarith
  · rw [hPm, hpsi]
    rfl
  · rw [hPm, hpsi]
    intro sl hsl
    rw [List.mem_singleton] at hsl
    subst hsl
    constructor
    · simp
    · intro row hrow
      rw [List.mem_map] at hrow
      obtain ⟨i, hi, hroweq⟩ := hrow
      rw [List.mem_range] at hi
      subst hroweq
      rw [List.length_take, List.length_drop, hflen]
      apply Nat.min_eq_left
      rw [← Nat.sub_mul]
      calc hd.nw.toNat = 1 * hd.nw.toNat := (one_mul _).symm
        _ ≤ (hd.nh.toNat - i) * hd.nw.toNat :=
          Nat.mul_le_mul_right _ (by omega)

/-- Witness for C10 at `gfileOk` (`nw = nh = 2`, positive extents). -/
theorem c10_witness :
    recGood.rGrid.length = 2 ∧ recGood.zGrid.length = 2 ∧
    List.Chain' (· < ·) recGood.rGrid ∧ List.Chain' (· < ·) recGood.zGrid ∧
    recGood.psiRZ.length = 1 ∧
    (∀ sl ∈ recGood.psiRZ, sl.length = 2 ∧ ∀ row ∈ sl, row.length = 2) := by
  have h := c10_axes_and_flux_shape gfileOk recGood rfl hdGood lsAfterHeader rfl
    gsGood lsAfterGrid rfl
  have hx : (0 : ℚ) < gsGood.xdim := by
    have e : gsGood.xdim =
        (((0 : ℕ) : ℚ) + ((1 : ℕ) : ℚ) / 10 ^ (1 : ℕ)) * 10 ^ (((1 : ℕ) : ℤ)) := rfl
    rw [e]
    norm_num
  have hz : (0 : ℚ) < gsGood.zdim := by
    have e : gsGood.zdim =
        (((0 : ℕ) : ℚ) + ((1 : ℕ) : ℚ) / 10 ^ (1 : ℕ)) * 10 ^ (((1 : ℕ) : ℤ)) := rfl
    rw [e]
    norm_num
  refine ⟨h.2.2.1.trans rfl, h.2.2.2.1.trans rfl, h.2.2.2.2.1 hx,
    h.2.2.2.2.2.1 hz, h.2.2.2.2.2.2.1, ?_⟩
  intro sl hsl
  obtain ⟨h1, h2⟩ := h.2.2.2.2.2.2.2 sl hsl
  exact ⟨h1.trans rfl, fun row hr => (h2 row hr).trans rfl⟩

end Eqdsk
